import Mathlib

/-!
Verification of `scripts/convert_garaga.py`: a converter from rapidsnark
Groth16 proof JSON to Garaga-style calldata for StarkNet.

The script is embedded shallowly: Python's arbitrary-precision integers
become `Int`, the parsed JSON document becomes the inductive `Json`, the
exception control flow of each function becomes `Except`, and the process
level behaviour of `main` becomes a pure function from the command-line /
file-system facts it consumes to the streams it produces.
-/

set_option maxRecDepth 100000
set_option linter.unusedVariables false

namespace ConvertGaraga

/-- StarkNet felt252 modulus, `STARKNET_FELT_MAX = 2**251 + 17 * 2**192 + 1`
from the script (the spec calls the same constant FIELD_MODULUS). -/
def STARKNET_FELT_MAX : Int := 2 ^ 251 + 17 * 2 ^ 192 + 1

/-- The BN254 prime constant from the script. -/
def BN254_PRIME : Int :=
  21888242871839275222246405745257275088548364400416034343698204186575808495617

/-- `apply_felt_modulo(value)`: returns `value` if `value < STARKNET_FELT_MAX`,
else `value % STARKNET_FELT_MAX`.  Python `%` with a positive modulus returns a
non-negative result, exactly as `Int.emod` does, so `%` is a faithful model. -/
def apply_felt_modulo (value : Int) : Int :=
  if value < STARKNET_FELT_MAX then value else value % STARKNET_FELT_MAX

/-- The value loaded by `json.load`: JSON documents restricted to integer
numerals (rapidsnark proof coordinates are integers or decimal strings;
floating point numerals do not occur in this data and are not modelled).
An `obj` models a Python dict as produced by `json.load` (keys unique). -/
inductive Json where
  | null
  | bool (b : Bool)
  | num (n : Int)
  | str (s : String)
  | arr (elems : List Json)
  | obj (fields : List (String × Json))

/-- A raised Python exception, as far as the script distinguishes them:
`keyError` keeps `str(e)` of a `KeyError` (the `repr` of the key), every
other exception is kept as its `str(e)` message. -/
inductive PyErr where
  | keyError (keyRepr : String)
  | other (msg : String)
deriving DecidableEq

/-- `str(e)` of the modelled exception. -/
def pyErrMessage : PyErr → String
  | .keyError r => r
  | .other m => m

/-- Python dict lookup on the association list of an `obj`. -/
def lookupField : List (String × Json) → String → Option Json
  | [], _ => none
  | (k', v) :: fs, k => if k' = k then some v else lookupField fs k

/-- `d[k]` on a loaded JSON value: `KeyError` when the key is absent,
`TypeError` when the value is not a dict (string subscripts on lists etc.). -/
def dictGet : Json → String → Except PyErr Json
  | .obj fs, k =>
    match lookupField fs k with
    | some v => .ok v
    | none => .error (.keyError ("\x27" ++ k ++ "\x27"))
  | .arr _, _ => .error (.other "list indices must be integers or slices, not str")
  | .str _, _ => .error (.other "string indices must be integers")
  | .num _, _ => .error (.other "\x27int\x27 object is not subscriptable")
  | .bool _, _ => .error (.other "\x27bool\x27 object is not subscriptable")
  | .null, _ => .error (.other "\x27NoneType\x27 object is not subscriptable")

/-- `d.get(k)` on a loaded JSON value: `None` when absent, `AttributeError`
when the value is not a dict. -/
def dictGetOpt : Json → String → Except PyErr (Option Json)
  | .obj fs, k => .ok (lookupField fs k)
  | .arr _, _ => .error (.other "\x27list\x27 object has no attribute \x27get\x27")
  | .str _, _ => .error (.other "\x27str\x27 object has no attribute \x27get\x27")
  | .num _, _ => .error (.other "\x27int\x27 object has no attribute \x27get\x27")
  | .bool _, _ => .error (.other "\x27bool\x27 object has no attribute \x27get\x27")
  | .null, _ => .error (.other "\x27NoneType\x27 object has no attribute \x27get\x27")

/-- `x[i]` for the non-negative literal indices the script uses (0 and 1):
`IndexError` past the end of a list or string, `TypeError` on scalars. -/
def listIndex : Json → Nat → Except PyErr Json
  | .arr xs, i =>
    match xs[i]? with
    | some v => .ok v
    | none => .error (.other "list index out of range")
  | .str s, i =>
    match s.data[i]? with
    | some c => .ok (.str (String.mk [c]))
    | none => .error (.other "string index out of range")
  | .obj _, i => .error (.keyError (toString i))
  | .num _, _ => .error (.other "\x27int\x27 object is not subscriptable")
  | .bool _, _ => .error (.other "\x27bool\x27 object is not subscriptable")
  | .null, _ => .error (.other "\x27NoneType\x27 object is not subscriptable")

/-- Value of a decimal digit character. -/
def decDigitVal (c : Char) : Option Nat :=
  if '0' ≤ c ∧ c ≤ '9' then some (c.toNat - '0'.toNat) else none

/-- Value of a hexadecimal digit character (both cases, as Python accepts). -/
def hexDigitVal (c : Char) : Option Nat :=
  if '0' ≤ c ∧ c ≤ '9' then some (c.toNat - '0'.toNat)
  else if 'a' ≤ c ∧ c ≤ 'f' then some (c.toNat - 'a'.toNat + 10)
  else if 'A' ≤ c ∧ c ≤ 'F' then some (c.toNat - 'A'.toNat + 10)
  else none

/-- Accumulate decimal digits; `none` on the first non-digit. -/
def parseDecCore : List Char → Nat → Option Nat
  | [], acc => some acc
  | c :: cs, acc =>
    match decDigitVal c with
    | some d => parseDecCore cs (10 * acc + d)
    | none => none

/-- A non-empty all-digit run, or `none`. -/
def parseDecDigits (cs : List Char) : Option Nat :=
  if cs = [] then none else parseDecCore cs 0

/-- Accumulate hexadecimal digits; `none` on the first non-digit. -/
def parseHexCore : List Char → Nat → Option Nat
  | [], acc => some acc
  | c :: cs, acc =>
    match hexDigitVal c with
    | some d => parseHexCore cs (16 * acc + d)
    | none => none

/-- A non-empty all-hex-digit run, or `none`. -/
def parseHexDigits (cs : List Char) : Option Nat :=
  if cs = [] then none else parseHexCore cs 0

/-- Strip one leading `0x` / `0X` marker, as `int(s, 16)` allows. -/
def stripHexMark : List Char → List Char
  | c0 :: c1 :: cs => if c0 = '0' ∧ (c1 = 'x' ∨ c1 = 'X') then cs else c0 :: c1 :: cs
  | cs => cs

/-- Python `int(s)` on a string: optional sign, then decimal digits.
(Python additionally tolerates surrounding whitespace and `_` separators;
the proof files carry plain signed decimals, and no claim turns on those
lexical extras.) -/
def parseDecChars : List Char → Option Int
  | [] => none
  | c :: cs =>
    if c = '-' then (parseDecDigits cs).map (fun n => -(n : Int))
    else if c = '+' then (parseDecDigits cs).map (fun n => (n : Int))
    else (parseDecDigits (c :: cs)).map (fun n => (n : Int))

/-- Python `int(s)` on a `String`. -/
def parseDecInt (s : String) : Option Int := parseDecChars s.data

/-- Python `int(s, 16)` on a string: optional sign, optional `0x`/`0X`
marker, then hex digits of either case (whitespace/underscore tolerance not
modelled, as for `parseDecChars`). -/
def parseHexChars : List Char → Option Int
  | [] => none
  | c :: cs =>
    if c = '-' then (parseHexDigits (stripHexMark cs)).map (fun n => -(n : Int))
    else if c = '+' then (parseHexDigits (stripHexMark cs)).map (fun n => (n : Int))
    else (parseHexDigits (stripHexMark (c :: cs))).map (fun n => (n : Int))

/-- Python `int(s, 16)` on a `String`. -/
def parseHexInt (s : String) : Option Int := parseHexChars s.data

/-- Lowercase hex digit characters, as Python's `hex()` emits. -/
def hexDigitChar (n : Nat) : Char :=
  if n < 10 then Char.ofNat ('0'.toNat + n) else Char.ofNat ('a'.toNat + n - 10)

/-- Digit emission for `hex()`, fuelled so that it is structural (the fuel
`n + 1` always suffices: the value shrinks by a factor 16 every step). -/
def natToHexCharsAux : Nat → Nat → List Char → List Char
  | 0, _, acc => acc
  | fuel + 1, n, acc =>
    if n < 16 then hexDigitChar n :: acc
    else natToHexCharsAux fuel (n / 16) (hexDigitChar (n % 16) :: acc)

/-- The lowercase hex digit string of a natural number (`"0"` for 0). -/
def natToHexChars (n : Nat) : List Char := natToHexCharsAux (n + 1) n []

/-- Python `hex(v)`: `0x` plus lowercase digits, with a leading `-` for
negative values. -/
def pyHex (v : Int) : String :=
  if v < 0 then String.mk ('-' :: '0' :: 'x' :: natToHexChars (-v).toNat)
  else String.mk ('0' :: 'x' :: natToHexChars v.toNat)

/-- Python `int(x)` on a loaded JSON value. -/
def pyInt : Json → Except PyErr Int
  | .num n => .ok n
  | .bool b => .ok (if b then 1 else 0)
  | .str s =>
    match parseDecInt s with
    | some n => .ok n
    | none => .error (.other ("invalid literal for int() with base 10: \x27" ++ s ++ "\x27"))
  | .null =>
    .error (.other "int() argument must be a string, a bytes-like object or a real number, not \x27NoneType\x27")
  | .arr _ =>
    .error (.other "int() argument must be a string, a bytes-like object or a real number, not \x27list\x27")
  | .obj _ =>
    .error (.other "int() argument must be a string, a bytes-like object or a real number, not \x27dict\x27")

/-- Python `int(x, 16)` on a loaded JSON value: only strings are accepted
with an explicit base. -/
def pyIntBase16 : Json → Except PyErr Int
  | .str s =>
    match parseHexInt s with
    | some n => .ok n
    | none => .error (.other ("invalid literal for int() with base 16: \x27" ++ s ++ "\x27"))
  | _ => .error (.other "int() can\x27t convert non-string with explicit base")

mutual

/-- Python `repr` of a loaded JSON value (as an f-string renders nested
containers).  Strings are assumed quote-free, as proof files are. -/
def jsonRepr : Json → String
  | .null => "None"
  | .bool true => "True"
  | .bool false => "False"
  | .num n => toString n
  | .str s => "\x27" ++ s ++ "\x27"
  | .arr xs => "[" ++ String.intercalate ", " (jsonReprList xs) ++ "]"
  | .obj fs => "\x7b" ++ String.intercalate ", " (jsonReprFields fs) ++ "\x7d"

/-- `repr` of each element of a list. -/
def jsonReprList : List Json → List String
  | [] => []
  | x :: xs => jsonRepr x :: jsonReprList xs

/-- `repr` of each `key: value` entry of a dict. -/
def jsonReprFields : List (String × Json) → List String
  | [] => []
  | (k, v) :: fs => ("\x27" ++ k ++ "\x27: " ++ jsonRepr v) :: jsonReprFields fs

end

/-- Python `str` of a loaded JSON value, as an f-string renders it at top
level (a string appears bare, everything else through `repr`). -/
def jsonPyStr : Json → String
  | .str s => s
  | j => jsonRepr j

/-- f-string rendering of `proof_data.get('protocol')`: `None` when absent. -/
def optPyStr : Option Json → String
  | none => "None"
  | some j => jsonPyStr j

/-- Python `value == 'groth16'` for a loaded JSON value: only the equal
string compares true. -/
def jsonEqStr : Json → String → Bool
  | .str s, t => s == t
  | _, _ => false

/-- The script's guard `proof_data.get('protocol') != 'groth16'`, as the
(negated) boolean it branches on. -/
def protocolOk : Option Json → Bool
  | some j => jsonEqStr j "groth16"
  | none => false

/-- The eight integer coordinates the script extracts before reduction. -/
structure Coords where
  a_x : Int
  a_y : Int
  b_x0 : Int
  b_x1 : Int
  b_y0 : Int
  b_y1 : Int
  c_x : Int
  c_y : Int

/-- The extraction phase of `convert_proof_to_garaga`, in the script's
exact order and index convention: `a` and `c` from `pi_a[0..1]`,
`pi_c[0..1]`, and the G2 point with reversed sub-indices
`b_x0 = pi_b[0][1]`, `b_x1 = pi_b[0][0]`, `b_y0 = pi_b[1][1]`,
`b_y1 = pi_b[1][0]`.  (The script's `int(x) if isinstance(x, (int, str))
else int(x)` is `int(x)` on both branches.) -/
def extractCoords (pd : Json) : Except PyErr Coords := do
  let pi_a ← dictGet pd "pi_a"
  let a_x ← pyInt (← listIndex pi_a 0)
  let a_y ← pyInt (← listIndex pi_a 1)
  let pi_b ← dictGet pd "pi_b"
  let b_x0 ← pyInt (← listIndex (← listIndex pi_b 0) 1)
  let b_x1 ← pyInt (← listIndex (← listIndex pi_b 0) 0)
  let b_y0 ← pyInt (← listIndex (← listIndex pi_b 1) 1)
  let b_y1 ← pyInt (← listIndex (← listIndex pi_b 1) 0)
  let pi_c ← dictGet pd "pi_c"
  let c_x ← pyInt (← listIndex pi_c 0)
  let c_y ← pyInt (← listIndex pi_c 1)
  pure ⟨a_x, a_y, b_x0, b_x1, b_y0, b_y1, c_x, c_y⟩

/-- `apply_felt_modulo` applied to each of the eight coordinates. -/
def reduceCoords (c : Coords) : Coords :=
  ⟨apply_felt_modulo c.a_x, apply_felt_modulo c.a_y,
   apply_felt_modulo c.b_x0, apply_felt_modulo c.b_x1,
   apply_felt_modulo c.b_y0, apply_felt_modulo c.b_y1,
   apply_felt_modulo c.c_x, apply_felt_modulo c.c_y⟩

/-- The per-coordinate diagnostic line the script prints to stderr: a
warning when the reduction changed the value, an acknowledgment otherwise. -/
def logLine (name : String) (orig mod : Int) : String :=
  if orig ≠ mod then
    "  ⚠️  " ++ name ++ ": applied modulo (original: " ++ toString orig ++
      ", modulo: " ++ toString mod ++ ")"
  else
    "  ✅ " ++ name ++ ": OK"

/-- All stderr lines of the reduction phase, in the script's dict insertion
order. -/
def moduloLogs (c r : Coords) : List String :=
  ["🔍 Applying felt252 modulo to proof values...",
   logLine "a.x" c.a_x r.a_x, logLine "a.y" c.a_y r.a_y,
   logLine "b.x0" c.b_x0 r.b_x0, logLine "b.x1" c.b_x1 r.b_x1,
   logLine "b.y0" c.b_y0 r.b_y0, logLine "b.y1" c.b_y1 r.b_y1,
   logLine "c.x" c.c_x r.c_x, logLine "c.y" c.c_y r.c_y]

/-- The `garaga_proof` dict shape, with the coordinate strings given. -/
def garagaOfStrs (sax say sbx0 sbx1 sby0 sby1 scx scy : String) : Json :=
  .obj [("a", .obj [("x", .str sax), ("y", .str say)]),
        ("b", .obj [("x", .arr [.str sbx0, .str sbx1]),
                    ("y", .arr [.str sby0, .str sby1])]),
        ("c", .obj [("x", .str scx), ("y", .str scy)])]

/-- The `garaga_proof` dict the script builds: every reduced coordinate
hex-encoded, `b.x = [hex(b_x0_mod), hex(b_x1_mod)]`,
`b.y = [hex(b_y0_mod), hex(b_y1_mod)]`. -/
def garagaJson (r : Coords) : Json :=
  garagaOfStrs (pyHex r.a_x) (pyHex r.a_y) (pyHex r.b_x0) (pyHex r.b_x1)
    (pyHex r.b_y0) (pyHex r.b_y1) (pyHex r.c_x) (pyHex r.c_y)

/-- The body of `convert_proof_to_garaga`'s `try` block on the loaded JSON
document: protocol validation (raising `ValueError` on mismatch), then
extraction, reduction with its stderr lines, and the dict construction. -/
def convert_inner (pd : Json) : Except PyErr (Json × List String) :=
  match dictGetOpt pd "protocol" with
  | .error e => .error e
  | .ok protocol =>
    if protocolOk protocol = false then
      .error (.other ("Expected groth16 protocol, got " ++ optPyStr protocol))
    else
      match extractCoords pd with
      | .error e => .error e
      | .ok c =>
        let r := reduceCoords c
        .ok (garagaJson r, moduloLogs c r)

/-- `convert_proof_to_garaga` on the loaded JSON document (the `open` +
`json.load` step is handled at `ReadResult`).  The `except` clauses turn a
`KeyError` into `ValueError("Missing required field in proof: <repr>")`,
and every other exception — including the protocol `ValueError` raised in
the `try` block itself — into `ValueError("Failed to convert proof: ...")`.
On success it returns the dict and the stderr lines printed on the way. -/
def convert_proof_to_garaga (pd : Json) : Except String (Json × List String) :=
  match convert_inner pd with
  | .ok r => .ok r
  | .error (.keyError r) => .error ("Missing required field in proof: " ++ r)
  | .error (.other m) => .error ("Failed to convert proof: " ++ m)

/-- The body of `proof_to_calldata`'s `try` block: decode every coordinate
back with `int(_, 16)` and render the fixed-order decimal strings. -/
def calldata_inner (g : Json) : Except PyErr (List String) := do
  let a_x ← pyIntBase16 (← dictGet (← dictGet g "a") "x")
  let a_y ← pyIntBase16 (← dictGet (← dictGet g "a") "y")
  let b_x0 ← pyIntBase16 (← listIndex (← dictGet (← dictGet g "b") "x") 0)
  let b_x1 ← pyIntBase16 (← listIndex (← dictGet (← dictGet g "b") "x") 1)
  let b_y0 ← pyIntBase16 (← listIndex (← dictGet (← dictGet g "b") "y") 0)
  let b_y1 ← pyIntBase16 (← listIndex (← dictGet (← dictGet g "b") "y") 1)
  let c_x ← pyIntBase16 (← dictGet (← dictGet g "c") "x")
  let c_y ← pyIntBase16 (← dictGet (← dictGet g "c") "y")
  pure [toString a_x, toString a_y, toString b_x0, toString b_x1,
        toString b_y0, toString b_y1, toString c_x, toString c_y]

/-- `proof_to_calldata`: its `except Exception` clause wraps any failure as
`ValueError("Failed to generate calldata: <str(e)>")`. -/
def proof_to_calldata (g : Json) : Except String (List String) :=
  match calldata_inner g with
  | .ok r => .ok r
  | .error e => .error ("Failed to generate calldata: " ++ pyErrMessage e)

/-- Outcome of `open(path)` + `json.load(f)`, the only I/O inside
`convert_proof_to_garaga`'s `try` block: the document, or the `str(e)` of
the `OSError`/`JSONDecodeError` it raised. -/
inductive ReadResult where
  | ok (j : Json)
  | ioError (msg : String)

/-- `convert_proof_to_garaga` from the file-read outcome: a read/parse
failure is an `Exception`, so the `except Exception` clause wraps it. -/
def convert_garaga_from_read : ReadResult → Except String (Json × List String)
  | .ok j => convert_proof_to_garaga j
  | .ioError m => .error ("Failed to convert proof: " ++ m)

/-- `json.dumps` of a list of (escape-free, here decimal) strings, with the
default `", "` separator. -/
def jsonDumpsStrList (xs : List String) : String :=
  "[" ++ String.intercalate ", " (xs.map (fun s => "\"" ++ s ++ "\"")) ++ "]"

/-- What one process run produces: the exit code, both streams as the lists
of `print` calls issued to them (the `traceback.print_exc` dump after the
`❌` line is I/O noise and not modelled line-by-line), and the side
`_garaga.json` artifact, if the run got far enough to write it. -/
structure MainResult where
  exitCode : Nat
  stdoutLines : List String
  stderrLines : List String
  garagaFileWritten : Option (String × Json)

/-- `main()` (under `sys.exit(main())`): usage check, file existence check,
conversion, the debug `_garaga.json` dump (Python's `str.replace` replaces
every occurrence, as `String.replace` does), calldata generation, and the
single stdout print of the JSON calldata array.  Every failure prints to
stderr and exits 1; success returns 0. -/
def main (hasArg : Bool) (path : String) (fileExists : Bool) (rr : ReadResult) :
    MainResult :=
  if hasArg = false then
    ⟨1, [], ["Usage: python convert_garaga.py <proof_file.json>"], none⟩
  else if fileExists = false then
    ⟨1, [], ["Error: File not found: " ++ path], none⟩
  else
    match convert_garaga_from_read rr with
    | .error e => ⟨1, [], ["❌ Error: " ++ e], none⟩
    | .ok (g, logs) =>
      let garagaFile := path.replace ".json" "_garaga.json"
      let stderrSoFar := logs ++
        ["✅ Garaga proof saved to: " ++ garagaFile,
         "📊 Generating calldata (values already have felt252 modulo applied)"]
      match proof_to_calldata g with
      | .error e => ⟨1, [], stderrSoFar ++ ["❌ Error: " ++ e], some (garagaFile, g)⟩
      | .ok cd => ⟨0, [jsonDumpsStrList cd], stderrSoFar, some (garagaFile, g)⟩

/-- Scenario A input: `{protocol: "groth16", pi_a: ["1", "2"],
pi_b: [["3", "4"], ["5", "6"]], pi_c: ["7", "8"]}`. -/
def pdA : Json :=
  .obj [("protocol", .str "groth16"),
        ("pi_a", .arr [.str "1", .str "2"]),
        ("pi_b", .arr [.arr [.str "3", .str "4"], .arr [.str "5", .str "6"]]),
        ("pi_c", .arr [.str "7", .str "8"])]

/-- Scenario B input: as Scenario A but with `pi_a[0]` the BN254 prime,
which exceeds `STARKNET_FELT_MAX`. -/
def pdB : Json :=
  .obj [("protocol", .str "groth16"),
        ("pi_a", .arr [.str "21888242871839275222246405745257275088548364400416034343698204186575808495617",
                       .str "2"]),
        ("pi_b", .arr [.arr [.str "3", .str "4"], .arr [.str "5", .str "6"]]),
        ("pi_c", .arr [.str "7", .str "8"])]

/-- Is a character a lowercase-alphabet hexadecimal digit? -/
def isHexDigitLower (c : Char) : Bool := c.isDigit || ('a' ≤ c && c ≤ 'f')

/-- The fixed-order decimal strings of eight (already reduced) coordinates:
`[a_x, a_y, b_x0, b_x1, b_y0, b_y1, c_x, c_y]`. -/
def coordDecimals (r : Coords) : List String :=
  [toString r.a_x, toString r.a_y, toString r.b_x0, toString r.b_x1,
   toString r.b_y0, toString r.b_y1, toString r.c_x, toString r.c_y]

/-! ### Helper lemmas -/

theorem exceptBind_ok {ε α β : Type} (a : α) (f : α → Except ε β) :
    (Except.ok a : Except ε α) >>= f = f a := rfl

theorem exceptBind_error {ε α β : Type} (e : ε) (f : α → Except ε β) :
    (Except.error e : Except ε α) >>= f = Except.error e := rfl

theorem exceptPure {ε α : Type} (a : α) : (pure a : Except ε α) = Except.ok a := rfl

theorem hexDigitVal_hexDigitChar : ∀ d : Nat, d < 16 → hexDigitVal (hexDigitChar d) = some d := by
  decide

theorem hexDigitChar_lower : ∀ d : Nat, d < 16 → isHexDigitLower (hexDigitChar d) = true := by
  decide

theorem natToHexCharsAux_length :
    ∀ (fuel n : Nat) (cs : List Char), cs.length ≤ (natToHexCharsAux fuel n cs).length := by
  intro fuel
  induction fuel with
  | zero => intro n cs; simp [natToHexCharsAux]
  | succ fuel ih =>
    intro n cs
    by_cases h16 : n < 16
    · simp [natToHexCharsAux, h16]
    · simp only [natToHexCharsAux, h16, if_false]
      calc cs.length ≤ (hexDigitChar (n % 16) :: cs).length := by simp
        _ ≤ _ := ih (n / 16) _

theorem natToHexChars_ne_nil (n : Nat) : natToHexChars n ≠ [] := by
  have h : 1 ≤ (natToHexChars n).length := by
    unfold natToHexChars
    by_cases h16 : n < 16
    · simp [natToHexCharsAux, h16]
    · simp only [natToHexCharsAux, h16, if_false]
      calc 1 = ([hexDigitChar (n % 16)] : List Char).length := by simp
      _ ≤ _ := natToHexCharsAux_length n (n / 16) _
  intro hnil
  rw [hnil] at h
  simp at h

theorem natToHexCharsAux_all :
    ∀ (fuel n : Nat) (cs : List Char), cs.all isHexDigitLower = true →
      (natToHexCharsAux fuel n cs).all isHexDigitLower = true := by
  intro fuel
  induction fuel with
  | zero => intro n cs h; simpa [natToHexCharsAux] using h
  | succ fuel ih =>
    intro n cs h
    by_cases h16 : n < 16
    · simp [natToHexCharsAux, h16, List.all_cons, hexDigitChar_lower n h16, h]
    · simp only [natToHexCharsAux, h16, if_false]
      exact ih (n / 16) _ (by
        simp [List.all_cons, h, hexDigitChar_lower (n % 16) (Nat.mod_lt n (by norm_num))])

theorem natToHexChars_all (n : Nat) : (natToHexChars n).all isHexDigitLower = true :=
  natToHexCharsAux_all (n + 1) n [] rfl

theorem parseHexCore_natToHexCharsAux :
    ∀ (fuel n : Nat), n < 16 ^ fuel → ∀ (a : Nat) (cs : List Char),
      ∃ k : Nat, parseHexCore (natToHexCharsAux fuel n cs) a = parseHexCore cs (a * 16 ^ k + n) := by
  intro fuel
  induction fuel with
  | zero =>
    intro n hn a cs
    interval_cases n
    exact ⟨0, by simp [natToHexCharsAux]⟩
  | succ fuel ih =>
    intro n hn a cs
    by_cases h16 : n < 16
    · refine ⟨1, ?_⟩
      simp only [natToHexCharsAux, h16, if_true, parseHexCore, hexDigitVal_hexDigitChar n h16]
      congr 1
      ring
    · have hd : n / 16 < 16 ^ fuel := by
        rw [Nat.div_lt_iff_lt_mul (by norm_num)]
        calc n < 16 ^ (fuel + 1) := hn
          _ = 16 ^ fuel * 16 := by ring
      obtain ⟨k, hk⟩ := ih (n / 16) hd a (hexDigitChar (n % 16) :: cs)
      refine ⟨k + 1, ?_⟩
      simp only [natToHexCharsAux, h16, if_false]
      rw [hk]
      simp only [parseHexCore, hexDigitVal_hexDigitChar (n % 16) (Nat.mod_lt n (by norm_num))]
      congr 1
      have hdm := Nat.div_add_mod n 16
      rw [pow_succ]
      ring_nf
      omega

theorem parseHexDigits_natToHexChars (n : Nat) : parseHexDigits (natToHexChars n) = some n := by
  have hlt : n < 16 ^ (n + 1) :=
    lt_of_lt_of_le (Nat.lt_pow_self (by norm_num) n)
      (Nat.pow_le_pow_right (by norm_num) (Nat.le_succ n))
  obtain ⟨k, hk⟩ := parseHexCore_natToHexCharsAux (n + 1) n hlt 0 []
  unfold parseHexDigits
  rw [if_neg (natToHexChars_ne_nil n)]
  show parseHexCore (natToHexCharsAux (n + 1) n []) 0 = some n
  rw [hk]
  simp [parseHexCore]

theorem stripHexMark_0x (cs : List Char) : stripHexMark ('0' :: 'x' :: cs) = cs := by
  simp [stripHexMark]

theorem pyIntBase16_pyHex (v : Int) : pyIntBase16 (Json.str (pyHex v)) = Except.ok v := by
  by_cases hv : v < 0
  · have hstr : pyHex v = String.mk ('-' :: '0' :: 'x' :: natToHexChars (-v).toNat) := by
      simp [pyHex, hv]
    have hparse : parseHexInt (pyHex v) = some v := by
      rw [hstr]
      show parseHexChars ('-' :: '0' :: 'x' :: natToHexChars (-v).toNat) = some v
      have hne : (((-v).toNat : Nat) : Int) = -v := Int.toNat_of_nonneg (by omega)
      simp [parseHexChars, stripHexMark_0x, parseHexDigits_natToHexChars, hne]
    simp [pyIntBase16, hparse]
  · have hstr : pyHex v = String.mk ('0' :: 'x' :: natToHexChars v.toNat) := by
      simp [pyHex, hv]
    have hparse : parseHexInt (pyHex v) = some v := by
      rw [hstr]
      show parseHexChars ('0' :: 'x' :: natToHexChars v.toNat) = some v
      have hne : ((v.toNat : Nat) : Int) = v := Int.toNat_of_nonneg (by omega)
      simp [parseHexChars, stripHexMark_0x, parseHexDigits_natToHexChars, hne]
    simp [pyIntBase16, hparse]

theorem protocolOk_iff (p : Option Json) :
    protocolOk p = true ↔ p = some (Json.str "groth16") := by
  cases p with
  | none => simp [protocolOk]
  | some j => cases j <;> simp [protocolOk, jsonEqStr]

theorem protocolOk_eq_false (p : Option Json) (h : p ≠ some (Json.str "groth16")) :
    protocolOk p = false := by
  cases hb : protocolOk p with
  | false => rfl
  | true => exact absurd ((protocolOk_iff p).mp hb) h

theorem convert_ok_of (pd : Json) (c : Coords)
    (hp : dictGetOpt pd "protocol" = .ok (some (Json.str "groth16")))
    (hc : extractCoords pd = .ok c) :
    convert_proof_to_garaga pd =
      .ok (garagaJson (reduceCoords c), moduloLogs c (reduceCoords c)) := by
  unfold convert_proof_to_garaga convert_inner
  rw [hp, hc]
  simp [protocolOk, jsonEqStr]

theorem convert_inner_ok_shape (pd g : Json) (logs : List String)
    (h : convert_inner pd = .ok (g, logs)) :
    ∃ c : Coords, extractCoords pd = .ok c ∧ g = garagaJson (reduceCoords c) ∧
      logs = moduloLogs c (reduceCoords c) := by
  unfold convert_inner at h
  split at h
  · simp at h
  · split at h
    · simp at h
    · split at h
      · simp at h
      · rename_i c hc
        obtain ⟨hg, hl⟩ := by simpa using h
        exact ⟨c, hc, hg.symm, hl.symm⟩

theorem convert_ok_to_inner (pd g : Json) (logs : List String)
    (h : convert_proof_to_garaga pd = .ok (g, logs)) :
    convert_inner pd = .ok (g, logs) := by
  unfold convert_proof_to_garaga at h
  split at h
  · rename_i r hr
    obtain rfl : r = (g, logs) := by simpa using h
    exact hr
  · simp at h
  · simp at h

theorem convert_ok_shape (pd g : Json) (logs : List String)
    (h : convert_proof_to_garaga pd = .ok (g, logs)) :
    ∃ c : Coords, extractCoords pd = .ok c ∧ g = garagaJson (reduceCoords c) ∧
      logs = moduloLogs c (reduceCoords c) :=
  convert_inner_ok_shape pd g logs (convert_ok_to_inner pd g logs h)

theorem extractCoords_of_shape (pd ja0 ja1 jb00 jb01 jb10 jb11 jc0 jc1 : Json)
    (Ax Ay H0 L0 H1 L1 Cx Cy : Int)
    (ha : dictGet pd "pi_a" = .ok (.arr [ja0, ja1]))
    (ha0 : pyInt ja0 = .ok Ax) (ha1 : pyInt ja1 = .ok Ay)
    (hb : dictGet pd "pi_b" = .ok (.arr [.arr [jb00, jb01], .arr [jb10, jb11]]))
    (hb00 : pyInt jb00 = .ok H0) (hb01 : pyInt jb01 = .ok L0)
    (hb10 : pyInt jb10 = .ok H1) (hb11 : pyInt jb11 = .ok L1)
    (hc : dictGet pd "pi_c" = .ok (.arr [jc0, jc1]))
    (hc0 : pyInt jc0 = .ok Cx) (hc1 : pyInt jc1 = .ok Cy) :
    extractCoords pd = .ok ⟨Ax, Ay, L0, H0, L1, H1, Cx, Cy⟩ := by
  simp [extractCoords, ha, ha0, ha1, hb, hb00, hb01, hb10, hb11, hc, hc0, hc1,
    listIndex, exceptBind_ok, exceptPure]

theorem calldata_inner_garagaJson (r : Coords) :
    calldata_inner (garagaJson r) = .ok (coordDecimals r) := by
  simp [calldata_inner, garagaJson, garagaOfStrs, dictGet, lookupField, listIndex,
    pyIntBase16_pyHex, coordDecimals, exceptBind_ok, exceptPure]

theorem proof_to_calldata_garagaJson (r : Coords) :
    proof_to_calldata (garagaJson r) = .ok (coordDecimals r) := by
  unfold proof_to_calldata
  rw [calldata_inner_garagaJson]

/-! ### Claim theorems -/

/-- C1: for every non-negative integer `v`, `apply_felt_modulo` returns `v`
unchanged when `v < STARKNET_FELT_MAX` and `v % STARKNET_FELT_MAX` otherwise;
consequently the result is always `< STARKNET_FELT_MAX` and always congruent
to `v` modulo `STARKNET_FELT_MAX`. -/
theorem c1_apply_felt_modulo_reduction (v : Int) (hv : 0 ≤ v) :
    (v < STARKNET_FELT_MAX → apply_felt_modulo v = v) ∧
    (STARKNET_FELT_MAX ≤ v → apply_felt_modulo v = v % STARKNET_FELT_MAX) ∧
    apply_felt_modulo v < STARKNET_FELT_MAX ∧
    apply_felt_modulo v % STARKNET_FELT_MAX = v % STARKNET_FELT_MAX := by
  have hM : (0 : Int) < STARKNET_FELT_MAX := by unfold STARKNET_FELT_MAX; positivity
  unfold apply_felt_modulo
  by_cases h : v < STARKNET_FELT_MAX
  · rw [if_pos h]
    exact ⟨fun _ => rfl, fun hle => absurd h (not_lt.mpr hle), h, rfl⟩
  · rw [if_neg h]
    exact ⟨fun hlt => absurd hlt h, fun _ => rfl, Int.emod_lt_of_pos v hM,
      Int.emod_emod_of_dvd v dvd_rfl⟩

theorem c1_apply_felt_modulo_reduction_witness :
    (0 ≤ (5 : Int) ∧ apply_felt_modulo 5 = 5) ∧
    (0 ≤ BN254_PRIME ∧ STARKNET_FELT_MAX ≤ BN254_PRIME ∧
      apply_felt_modulo BN254_PRIME = BN254_PRIME % STARKNET_FELT_MAX ∧
      apply_felt_modulo BN254_PRIME < STARKNET_FELT_MAX) :=
  ⟨⟨by decide, (c1_apply_felt_modulo_reduction 5 (by decide)).1 (by decide)⟩,
   ⟨by decide, by decide,
    (c1_apply_felt_modulo_reduction BN254_PRIME (by decide)).2.1 (by decide),
    (c1_apply_felt_modulo_reduction BN254_PRIME (by decide)).2.2.1⟩⟩

/-- C10: `apply_felt_modulo` returns every input `< STARKNET_FELT_MAX`
unchanged, so every negative integer passes through unchanged: the result is
negative, not a canonical field residue, and the bound/non-negativity
guarantee holds only under the non-negative-input precondition. -/
theorem c10_apply_felt_modulo_negative (v : Int) (hv : v < 0) :
    apply_felt_modulo v = v ∧ apply_felt_modulo v < 0 ∧ ¬ 0 ≤ apply_felt_modulo v := by
  have hM : (0 : Int) < STARKNET_FELT_MAX := by unfold STARKNET_FELT_MAX; positivity
  unfold apply_felt_modulo
  rw [if_pos (lt_trans hv hM)]
  exact ⟨rfl, hv, not_le.mpr hv⟩

theorem c10_apply_felt_modulo_negative_witness :
    (-5 : Int) < 0 ∧ apply_felt_modulo (-5) = -5 ∧ apply_felt_modulo (-5) < 0 :=
  ⟨by decide, (c10_apply_felt_modulo_negative (-5) (by decide)).1,
   (c10_apply_felt_modulo_negative (-5) (by decide)).2.1⟩

/-- C4: Scenario A — converting the concrete groth16 input with
`pi_a = ["1","2"]`, `pi_b = [["3","4"],["5","6"]]`, `pi_c = ["7","8"]` and
flattening yields the calldata `["1","2","4","3","6","5","7","8"]`, with
every reduction log line reporting OK (no value changed by reduction). -/
theorem c4_scenario_a :
    convert_proof_to_garaga pdA =
      .ok (garagaJson ⟨1, 2, 4, 3, 6, 5, 7, 8⟩,
        ["🔍 Applying felt252 modulo to proof values...",
         "  ✅ a.x: OK", "  ✅ a.y: OK", "  ✅ b.x0: OK", "  ✅ b.x1: OK",
         "  ✅ b.y0: OK", "  ✅ b.y1: OK", "  ✅ c.x: OK", "  ✅ c.y: OK"]) ∧
    proof_to_calldata (garagaJson ⟨1, 2, 4, 3, 6, 5, 7, 8⟩) =
      .ok ["1", "2", "4", "3", "6", "5", "7", "8"] :=
  ⟨rfl, rfl⟩

/-- C2: for a well-formed groth16 input whose `pi_b` is `[[H0, L0], [H1, L1]]`,
the produced `b.x` equals `[hex(reduce L0), hex(reduce H0)]` and `b.y` equals
`[hex(reduce L1), hex(reduce H1)]`: within each pair, source index 0 supplies
the high (output index 1) component and source index 1 the low (output
index 0) component, end to end. -/
theorem c2_pi_b_index_reversal (pd jh0 jl0 jh1 jl1 ja0 ja1 jc0 jc1 : Json)
    (Ax Ay H0 L0 H1 L1 Cx Cy : Int)
    (hp : dictGetOpt pd "protocol" = .ok (some (Json.str "groth16")))
    (ha : dictGet pd "pi_a" = .ok (.arr [ja0, ja1]))
    (ha0 : pyInt ja0 = .ok Ax) (ha1 : pyInt ja1 = .ok Ay)
    (hb : dictGet pd "pi_b" = .ok (.arr [.arr [jh0, jl0], .arr [jh1, jl1]]))
    (hh0 : pyInt jh0 = .ok H0) (hl0 : pyInt jl0 = .ok L0)
    (hh1 : pyInt jh1 = .ok H1) (hl1 : pyInt jl1 = .ok L1)
    (hc : dictGet pd "pi_c" = .ok (.arr [jc0, jc1]))
    (hc0 : pyInt jc0 = .ok Cx) (hc1 : pyInt jc1 = .ok Cy) :
    ∃ g logs, convert_proof_to_garaga pd = .ok (g, logs) ∧
      dictGet g "b" = .ok (.obj
        [("x", .arr [.str (pyHex (apply_felt_modulo L0)),
                     .str (pyHex (apply_felt_modulo H0))]),
         ("y", .arr [.str (pyHex (apply_felt_modulo L1)),
                     .str (pyHex (apply_felt_modulo H1))])]) := by
  have hext := extractCoords_of_shape pd ja0 ja1 jh0 jl0 jh1 jl1 jc0 jc1
    Ax Ay H0 L0 H1 L1 Cx Cy ha ha0 ha1 hb hh0 hl0 hh1 hl1 hc hc0 hc1
  exact ⟨_, _, convert_ok_of pd _ hp hext, rfl⟩

theorem c2_pi_b_index_reversal_witness :
    dictGet pdA "pi_b" = .ok (.arr [.arr [.str "3", .str "4"], .arr [.str "5", .str "6"]]) ∧
    ∃ g logs, convert_proof_to_garaga pdA = .ok (g, logs) ∧
      dictGet g "b" = .ok (.obj
        [("x", .arr [.str (pyHex (apply_felt_modulo 4)), .str (pyHex (apply_felt_modulo 3))]),
         ("y", .arr [.str (pyHex (apply_felt_modulo 6)), .str (pyHex (apply_felt_modulo 5))])]) :=
  ⟨rfl, c2_pi_b_index_reversal pdA (.str "3") (.str "4") (.str "5") (.str "6")
    (.str "1") (.str "2") (.str "7") (.str "8") 1 2 3 4 5 6 7 8
    rfl rfl rfl rfl rfl rfl rfl rfl rfl rfl rfl rfl⟩

/-- C3: every GaragaProof `g` produced by `convert_proof_to_garaga` flattens
through `proof_to_calldata` into exactly 8 decimal strings, in the fixed
order `[a_x, a_y, b_x0, b_x1, b_y0, b_y1, c_x, c_y]`, whose integer values
are exactly the hex-decoded values of `g`'s fields. -/
theorem c3_calldata_roundtrip (pd g : Json) (logs : List String)
    (h : convert_proof_to_garaga pd = .ok (g, logs)) :
    ∃ r : Coords, g = garagaJson r ∧
      proof_to_calldata g = .ok (coordDecimals r) ∧
      (coordDecimals r).length = 8 ∧
      (∀ v ∈ [r.a_x, r.a_y, r.b_x0, r.b_x1, r.b_y0, r.b_y1, r.c_x, r.c_y],
        pyIntBase16 (.str (pyHex v)) = .ok v) := by
  obtain ⟨c, hc, hg, hl⟩ := convert_ok_shape pd g logs h
  refine ⟨reduceCoords c, hg, ?_, rfl, ?_⟩
  · rw [hg]
    exact proof_to_calldata_garagaJson _
  · intro v hv
    exact pyIntBase16_pyHex v

theorem c3_calldata_roundtrip_witness :
    (convert_proof_to_garaga pdA = .ok (garagaJson ⟨1, 2, 4, 3, 6, 5, 7, 8⟩,
      moduloLogs ⟨1, 2, 4, 3, 6, 5, 7, 8⟩ ⟨1, 2, 4, 3, 6, 5, 7, 8⟩)) ∧
    ∃ r : Coords, (garagaJson ⟨1, 2, 4, 3, 6, 5, 7, 8⟩ : Json) = garagaJson r ∧
      proof_to_calldata (garagaJson ⟨1, 2, 4, 3, 6, 5, 7, 8⟩) = .ok (coordDecimals r) ∧
      (coordDecimals r).length = 8 ∧
      (∀ v ∈ [r.a_x, r.a_y, r.b_x0, r.b_x1, r.b_y0, r.b_y1, r.c_x, r.c_y],
        pyIntBase16 (.str (pyHex v)) = .ok v) :=
  ⟨rfl, c3_calldata_roundtrip pdA _ _ rfl⟩

/-- C5: every coordinate of a produced GaragaProof is the `0x`-prefixed
lowercase-hex encoding of its reduced value (for the spec's unsigned source
coordinates); and in Scenario B, where `pi_a[0]` is the BN254 prime
(exceeding `STARKNET_FELT_MAX`), the output `a.x` is
`hex(BN254_PRIME % STARKNET_FELT_MAX)` and the stderr log contains the
warning line noting that the modulo was applied to `a.x`. -/
theorem c5_hex_encoding_and_scenario_b :
    (∀ (pd g : Json) (logs : List String) (c : Coords),
      convert_proof_to_garaga pd = .ok (g, logs) → extractCoords pd = .ok c →
      g = garagaJson (reduceCoords c) ∧
      (∀ v ∈ [c.a_x, c.a_y, c.b_x0, c.b_x1, c.b_y0, c.b_y1, c.c_x, c.c_y], 0 ≤ v →
        ∃ ds : List Char, pyHex (apply_felt_modulo v) = String.mk ('0' :: 'x' :: ds) ∧
          ds ≠ [] ∧ ds.all isHexDigitLower = true)) ∧
    convert_proof_to_garaga pdB =
      .ok (garagaJson ⟨BN254_PRIME % STARKNET_FELT_MAX, 2, 4, 3, 6, 5, 7, 8⟩,
        moduloLogs ⟨BN254_PRIME, 2, 4, 3, 6, 5, 7, 8⟩
          ⟨BN254_PRIME % STARKNET_FELT_MAX, 2, 4, 3, 6, 5, 7, 8⟩) ∧
    ("  ⚠️  a.x: applied modulo (original: " ++ toString BN254_PRIME ++ ", modulo: "
        ++ toString (BN254_PRIME % STARKNET_FELT_MAX) ++ ")") ∈
      moduloLogs ⟨BN254_PRIME, 2, 4, 3, 6, 5, 7, 8⟩
        ⟨BN254_PRIME % STARKNET_FELT_MAX, 2, 4, 3, 6, 5, 7, 8⟩ := by
  refine ⟨?_, rfl, ?_⟩
  · intro pd g logs c h hc
    obtain ⟨c', hc', hg, hl⟩ := convert_ok_shape pd g logs h
    rw [hc] at hc'
    obtain rfl : c = c' := by simpa using hc'
    refine ⟨hg, ?_⟩
    intro v hv hv0
    have h0 : 0 ≤ apply_felt_modulo v := by
      unfold apply_felt_modulo
      split
      · exact hv0
      · exact Int.emod_nonneg v (by unfold STARKNET_FELT_MAX; positivity)
    have hshape : pyHex (apply_felt_modulo v) =
        String.mk ('0' :: 'x' :: natToHexChars (apply_felt_modulo v).toNat) := by
      simp [pyHex, not_lt.mpr h0]
    exact ⟨natToHexChars (apply_felt_modulo v).toNat, hshape,
      natToHexChars_ne_nil _, natToHexChars_all _⟩
  · exact List.mem_cons_of_mem _ (List.mem_cons_self _ _)

theorem c5_hex_encoding_and_scenario_b_witness :
    (convert_proof_to_garaga pdA = .ok
      (garagaJson (reduceCoords ⟨1, 2, 4, 3, 6, 5, 7, 8⟩),
       moduloLogs ⟨1, 2, 4, 3, 6, 5, 7, 8⟩ (reduceCoords ⟨1, 2, 4, 3, 6, 5, 7, 8⟩)) ∧
     extractCoords pdA = .ok ⟨1, 2, 4, 3, 6, 5, 7, 8⟩) ∧
    (garagaJson (reduceCoords ⟨1, 2, 4, 3, 6, 5, 7, 8⟩) : Json) =
        garagaJson (reduceCoords ⟨1, 2, 4, 3, 6, 5, 7, 8⟩) ∧
    (∀ v ∈ [(1 : Int), 2, 4, 3, 6, 5, 7, 8], 0 ≤ v →
      ∃ ds : List Char, pyHex (apply_felt_modulo v) = String.mk ('0' :: 'x' :: ds) ∧
        ds ≠ [] ∧ ds.all isHexDigitLower = true) :=
  ⟨⟨rfl, rfl⟩,
   (c5_hex_encoding_and_scenario_b.1 pdA _ _ ⟨1, 2, 4, 3, 6, 5, 7, 8⟩ rfl rfl).1,
   (c5_hex_encoding_and_scenario_b.1 pdA _ _ ⟨1, 2, 4, 3, 6, 5, 7, 8⟩ rfl rfl).2⟩

/-- C6: an input whose protocol field is not `"groth16"` (or absent) makes
`convert_proof_to_garaga` fail with the validation error carrying the actual
protocol value (wrapped by the script's generic `except Exception` clause
into the `Failed to convert proof:` message), no result is produced, and the
process exits with code 1 printing nothing on stdout. -/
theorem c6_protocol_validation (pd : Json) (p : Option Json) (path : String)
    (hp : dictGetOpt pd "protocol" = .ok p)
    (hne : p ≠ some (Json.str "groth16")) :
    convert_proof_to_garaga pd =
      .error ("Failed to convert proof: Expected groth16 protocol, got " ++ optPyStr p) ∧
    (main true path true (.ok pd)).exitCode = 1 ∧
    (main true path true (.ok pd)).stdoutLines = [] := by
  have hinner : convert_inner pd =
      .error (.other ("Expected groth16 protocol, got " ++ optPyStr p)) := by
    unfold convert_inner
    rw [hp]
    simp [protocolOk_eq_false p hne]
  have hconv : convert_proof_to_garaga pd =
      .error ("Failed to convert proof: Expected groth16 protocol, got " ++ optPyStr p) := by
    unfold convert_proof_to_garaga
    rw [hinner]
    rfl
  exact ⟨hconv, by simp [main, convert_garaga_from_read, hconv],
    by simp [main, convert_garaga_from_read, hconv]⟩

theorem c6_protocol_validation_witness :
    convert_proof_to_garaga (.obj [("protocol", Json.str "plonk")]) =
      .error "Failed to convert proof: Expected groth16 protocol, got plonk" ∧
    (main true "proof.json" true (.ok (.obj [("protocol", Json.str "plonk")]))).exitCode = 1 ∧
    (main true "proof.json" true (.ok (.obj [("protocol", Json.str "plonk")]))).stdoutLines = [] :=
  c6_protocol_validation (.obj [("protocol", Json.str "plonk")])
    (some (Json.str "plonk")) "proof.json" rfl (by simp)

theorem convert_keyError_of (pd : Json) (p : Option Json) (r : String)
    (hp : dictGetOpt pd "protocol" = .ok p) (hok : protocolOk p = true)
    (hex : extractCoords pd = .error (.keyError r)) :
    convert_proof_to_garaga pd = .error ("Missing required field in proof: " ++ r) := by
  have hinner : convert_inner pd = .error (.keyError r) := by
    unfold convert_inner
    rw [hp]
    simp [hok, hex]
  unfold convert_proof_to_garaga
  rw [hinner]

/-- C7: an input missing a required coordinate field fails with the
missing-field error naming that field (`pi_a`, `pi_b` or `pi_c`, whichever
access fails first), a `KeyError` anywhere in the body is reported as
`Missing required field in proof:` naming the key, and every other failure
of the body is wrapped as `Failed to convert proof:` with the cause; in all
cases the call returns an error and no partial result. -/
theorem c7_missing_field_errors :
    (∀ fs : List (String × Json), protocolOk (lookupField fs "protocol") = true →
      lookupField fs "pi_a" = none →
      convert_proof_to_garaga (.obj fs) =
        .error "Missing required field in proof: \x27pi_a\x27") ∧
    (∀ (fs : List (String × Json)) (ja0 ja1 : Json) (Ax Ay : Int),
      protocolOk (lookupField fs "protocol") = true →
      lookupField fs "pi_a" = some (.arr [ja0, ja1]) →
      pyInt ja0 = .ok Ax → pyInt ja1 = .ok Ay →
      lookupField fs "pi_b" = none →
      convert_proof_to_garaga (.obj fs) =
        .error "Missing required field in proof: \x27pi_b\x27") ∧
    (∀ (fs : List (String × Json)) (ja0 ja1 jb00 jb01 jb10 jb11 : Json)
        (Ax Ay H0 L0 H1 L1 : Int),
      protocolOk (lookupField fs "protocol") = true →
      lookupField fs "pi_a" = some (.arr [ja0, ja1]) →
      pyInt ja0 = .ok Ax → pyInt ja1 = .ok Ay →
      lookupField fs "pi_b" = some (.arr [.arr [jb00, jb01], .arr [jb10, jb11]]) →
      pyInt jb00 = .ok H0 → pyInt jb01 = .ok L0 →
      pyInt jb10 = .ok H1 → pyInt jb11 = .ok L1 →
      lookupField fs "pi_c" = none →
      convert_proof_to_garaga (.obj fs) =
        .error "Missing required field in proof: \x27pi_c\x27") ∧
    (∀ (pd : Json) (r : String), convert_inner pd = .error (.keyError r) →
      convert_proof_to_garaga pd = .error ("Missing required field in proof: " ++ r)) ∧
    (∀ (pd : Json) (m : String), convert_inner pd = .error (.other m) →
      convert_proof_to_garaga pd = .error ("Failed to convert proof: " ++ m)) := by
  refine ⟨?_, ?_, ?_, ?_, ?_⟩
  · intro fs hprot hpa
    refine convert_keyError_of _ (lookupField fs "protocol") _ rfl hprot ?_
    simp [extractCoords, dictGet, hpa, exceptBind_error]
  · intro fs ja0 ja1 Ax Ay hprot hpa ha0 ha1 hpb
    refine convert_keyError_of _ (lookupField fs "protocol") _ rfl hprot ?_
    simp [extractCoords, dictGet, hpa, ha0, ha1, hpb, listIndex,
      exceptBind_ok, exceptBind_error]
  · intro fs ja0 ja1 jb00 jb01 jb10 jb11 Ax Ay H0 L0 H1 L1
      hprot hpa ha0 ha1 hpb hb00 hb01 hb10 hb11 hpc
    refine convert_keyError_of _ (lookupField fs "protocol") _ rfl hprot ?_
    simp [extractCoords, dictGet, hpa, ha0, ha1, hpb, hb00, hb01, hb10, hb11, hpc,
      listIndex, exceptBind_ok, exceptBind_error]
  · intro pd r h
    unfold convert_proof_to_garaga
    rw [h]
  · intro pd m h
    unfold convert_proof_to_garaga
    rw [h]

theorem c7_missing_field_errors_witness :
    protocolOk (lookupField [("protocol", Json.str "groth16"),
      ("pi_a", Json.arr [.str "1", .str "2"]),
      ("pi_b", Json.arr [.arr [.str "3", .str "4"], .arr [.str "5", .str "6"]])]
        "protocol") = true ∧
    lookupField [("protocol", Json.str "groth16"),
      ("pi_a", Json.arr [.str "1", .str "2"]),
      ("pi_b", Json.arr [.arr [.str "3", .str "4"], .arr [.str "5", .str "6"]])]
        "pi_c" = none ∧
    convert_proof_to_garaga (.obj [("protocol", Json.str "groth16"),
      ("pi_a", Json.arr [.str "1", .str "2"]),
      ("pi_b", Json.arr [.arr [.str "3", .str "4"], .arr [.str "5", .str "6"]])]) =
      .error "Missing required field in proof: \x27pi_c\x27" :=
  ⟨rfl, rfl,
   c7_missing_field_errors.2.2.1 [("protocol", Json.str "groth16"),
      ("pi_a", Json.arr [.str "1", .str "2"]),
      ("pi_b", Json.arr [.arr [.str "3", .str "4"], .arr [.str "5", .str "6"]])]
    (.str "1") (.str "2") (.str "3") (.str "4") (.str "5") (.str "6")
    1 2 3 4 5 6 rfl rfl rfl rfl rfl rfl rfl rfl rfl rfl⟩

/-- C8: `proof_to_calldata` applies no further modulo: for any GaragaProof
whose fields are valid hex strings — including values at or above
`STARKNET_FELT_MAX` — the emitted decimal strings are exactly the decoded
values, in fixed order; a missing field or a non-hexadecimal field makes it
fail with the `Failed to generate calldata:` error wrapping the cause. -/
theorem c8_calldata_no_modulo :
    (∀ (sax say sbx0 sbx1 sby0 sby1 scx scy : String)
        (vax vay vbx0 vbx1 vby0 vby1 vcx vcy : Int),
      parseHexInt sax = some vax → parseHexInt say = some vay →
      parseHexInt sbx0 = some vbx0 → parseHexInt sbx1 = some vbx1 →
      parseHexInt sby0 = some vby0 → parseHexInt sby1 = some vby1 →
      parseHexInt scx = some vcx → parseHexInt scy = some vcy →
      proof_to_calldata (garagaOfStrs sax say sbx0 sbx1 sby0 sby1 scx scy) =
        .ok [toString vax, toString vay, toString vbx0, toString vbx1,
             toString vby0, toString vby1, toString vcx, toString vcy]) ∧
    (∀ (g : Json) (e : PyErr), calldata_inner g = .error e →
      proof_to_calldata g = .error ("Failed to generate calldata: " ++ pyErrMessage e)) ∧
    (∀ fs : List (String × Json), lookupField fs "a" = none →
      proof_to_calldata (.obj fs) = .error "Failed to generate calldata: \x27a\x27") ∧
    (∀ sax say sbx0 sbx1 sby0 sby1 scx scy : String,
      parseHexInt sax = none →
      proof_to_calldata (garagaOfStrs sax say sbx0 sbx1 sby0 sby1 scx scy) =
        .error ("Failed to generate calldata: invalid literal for int() with base 16: \x27"
          ++ sax ++ "\x27")) := by
  refine ⟨?_, ?_, ?_, ?_⟩
  · intro sax say sbx0 sbx1 sby0 sby1 scx scy vax vay vbx0 vbx1 vby0 vby1 vcx vcy
      h1 h2 h3 h4 h5 h6 h7 h8
    simp [proof_to_calldata, calldata_inner, garagaOfStrs, dictGet, lookupField,
      listIndex, pyIntBase16, h1, h2, h3, h4, h5, h6, h7, h8,
      exceptBind_ok, exceptPure]
  · intro g e h
    unfold proof_to_calldata
    rw [h]
  · intro fs h
    simp [proof_to_calldata, calldata_inner, dictGet, h,
      exceptBind_error, pyErrMessage]
  · intro sax say sbx0 sbx1 sby0 sby1 scx scy h
    simp [proof_to_calldata, calldata_inner, garagaOfStrs, dictGet, lookupField,
      listIndex, pyIntBase16, h, exceptBind_ok, exceptBind_error, pyErrMessage]
    rfl

theorem c8_calldata_no_modulo_witness :
    parseHexInt "0x800000000000011000000000000000000000000000000000000000000000001" =
      some STARKNET_FELT_MAX ∧
    parseHexInt "0x1" = some 1 ∧
    proof_to_calldata (garagaOfStrs
      "0x800000000000011000000000000000000000000000000000000000000000001"
      "0x1" "0x1" "0x1" "0x1" "0x1" "0x1" "0x1") =
      .ok [toString STARKNET_FELT_MAX, toString (1 : Int), toString (1 : Int),
        toString (1 : Int), toString (1 : Int), toString (1 : Int),
        toString (1 : Int), toString (1 : Int)] :=
  ⟨rfl, rfl,
   c8_calldata_no_modulo.1
     "0x800000000000011000000000000000000000000000000000000000000000001"
     "0x1" "0x1" "0x1" "0x1" "0x1" "0x1" "0x1"
     STARKNET_FELT_MAX 1 1 1 1 1 1 1 rfl rfl rfl rfl rfl rfl rfl rfl⟩

/-- C9: on any failure (missing path argument, nonexistent input file, or
any conversion/calldata error) the process exits with code 1, writes an
error description to stderr, writes nothing to stdout and writes no
`_garaga.json` side artifact; the only other outcome is exit code 0 with
the single calldata JSON line on stdout — output is all-or-nothing. -/
theorem c9_all_or_nothing (hasArg : Bool) (path : String) (fileExists : Bool)
    (rr : ReadResult) :
    ((main hasArg path fileExists rr).exitCode = 0 ∨
      (main hasArg path fileExists rr).exitCode = 1) ∧
    ((main hasArg path fileExists rr).exitCode = 1 →
      (main hasArg path fileExists rr).stdoutLines = [] ∧
      (main hasArg path fileExists rr).stderrLines ≠ [] ∧
      (main hasArg path fileExists rr).garagaFileWritten = none) ∧
    ((main hasArg path fileExists rr).exitCode = 0 →
      ∃ cd, (main hasArg path fileExists rr).stdoutLines = [jsonDumpsStrList cd]) := by
  cases hasArg with
  | false => simp [main]
  | true =>
    cases fileExists with
    | false => simp [main]
    | true =>
      cases hcv : convert_garaga_from_read rr with
      | error e => simp [main, hcv]
      | ok pr =>
        obtain ⟨g, logs⟩ := pr
        cases rr with
        | ioError m => simp [convert_garaga_from_read] at hcv
        | ok pd =>
          have hconv : convert_proof_to_garaga pd = .ok (g, logs) := hcv
          obtain ⟨c, hc, hg, hl⟩ := convert_ok_shape pd g logs hconv
          have hcd : proof_to_calldata g = .ok (coordDecimals (reduceCoords c)) := by
            rw [hg]
            exact proof_to_calldata_garagaJson _
          have hm : main true path true (.ok pd) =
              ⟨0, [jsonDumpsStrList (coordDecimals (reduceCoords c))],
               logs ++ ["✅ Garaga proof saved to: " ++ path.replace ".json" "_garaga.json",
                 "📊 Generating calldata (values already have felt252 modulo applied)"],
               some (path.replace ".json" "_garaga.json", g)⟩ := by
            simp [main, convert_garaga_from_read, hconv, hcd]
          rw [hm]
          exact ⟨Or.inl rfl, by simp, fun _ => ⟨_, rfl⟩⟩

theorem c9_all_or_nothing_witness :
    (main true "proof.json" true (.ioError "boom")).exitCode = 1 ∧
    (main true "proof.json" true (.ioError "boom")).stdoutLines = [] ∧
    (main true "proof.json" true (.ioError "boom")).stderrLines ≠ [] ∧
    (main true "proof.json" true (.ioError "boom")).garagaFileWritten = none :=
  ⟨rfl,
   ((c9_all_or_nothing true "proof.json" true (.ioError "boom")).2.1 rfl).1,
   ((c9_all_or_nothing true "proof.json" true (.ioError "boom")).2.1 rfl).2.1,
   ((c9_all_or_nothing true "proof.json" true (.ioError "boom")).2.1 rfl).2.2⟩

end ConvertGaraga
